import Mathlib

/-!
Shallow embedding of the prepare → confirm → execute transaction workflow of the
Mysol agent (tools `sendSolTransaction`/`confirmTransaction`, `swapTokens`/`confirmSwap`,
`prepareCrossChainSwap`/`confirmCrossChainSwap`, and the Jupiter token/search utilities).

External collaborators (the Solana RPC connection, the Jupiter and Mayan HTTP APIs,
the key-custody wallet) are modelled as explicit environment records passed to each
operation; the three module-level mutable `pending…` slots are modelled as explicit
state passed in and returned.  Amounts are modelled as exact finite decimals (the
source uses JS numbers; every value this workflow computes with is one).
-/

namespace Mysol

/-! ## String utilities modelling the JavaScript string operations used by the source -/

/-- Is `pat` a prefix of `cs`?  (Helper for `occursList`.) -/
def isPrefList : List Char → List Char → Bool
  | [], _ => true
  | _ :: _, [] => false
  | p :: ps, c :: cs => p = c && isPrefList ps cs

/-- Does `sub` occur as a contiguous substring of `hay`?  Models JS `String.includes`. -/
def occursList (sub : List Char) : List Char → Bool
  | [] => isPrefList sub []
  | c :: cs => isPrefList sub (c :: cs) || occursList sub cs

/-- `strIncludes s sub` models the JS call `s.includes(sub)`. -/
def strIncludes (s sub : String) : Bool :=
  occursList sub.toList s.toList

/-- The whitespace characters trimmed / matched by the source's JS operations
(`String.trim`, the `\s` class): the ASCII part of the JS definition. -/
def isJsWs (c : Char) : Bool :=
  c = ' ' || c = '\t' || c = '\n' || c = '\r' || c = '\x0b' || c = '\x0c'

/-- Models JS `String.toLowerCase` (ASCII; the phrases involved are ASCII). -/
def lowerStr (s : String) : String :=
  String.mk (s.toList.map Char.toLower)

/-- Models JS `String.toUpperCase` (ASCII). -/
def upperStr (s : String) : String :=
  String.mk (s.toList.map Char.toUpper)

/-- Models JS `String.trim`. -/
def trimStr (s : String) : String :=
  String.mk (((s.toList.dropWhile isJsWs).reverse.dropWhile isJsWs).reverse)

/-- Models the JS normalisation `input.toLowerCase().trim()` used by every
confirmation classifier in the source. -/
def normJS (s : String) : String :=
  trimStr (lowerStr s)

/-! ## Exact decimal amounts

Every number this workflow computes with — literal safety limits and fee
estimates, amounts captured from command text by `parseFloat`, and token amounts
scaled by powers of ten — is a finite decimal.  `Dec` represents such a value
exactly as `num / 10 ^ exp`, with arithmetic and comparisons by integer
cross-multiplication, so concrete runs of the embedded tools reduce in the
kernel. -/

/-- An exact finite-decimal number `num / 10 ^ exp`. -/
structure Dec where
  num : ℤ
  exp : ℕ
deriving DecidableEq

namespace Dec

/-- Exact addition on decimals (common denominator `10 ^ max`). -/
def add (a b : Dec) : Dec :=
  ⟨a.num * 10 ^ (max a.exp b.exp - a.exp) + b.num * 10 ^ (max a.exp b.exp - b.exp),
    max a.exp b.exp⟩

/-- The strict order of the represented values, by cross-multiplication (the
denominators `10 ^ exp` are positive). -/
def lt (a b : Dec) : Prop :=
  a.num * 10 ^ b.exp < b.num * 10 ^ a.exp

instance : Add Dec := ⟨Dec.add⟩

instance : LT Dec := ⟨Dec.lt⟩

instance (a b : Dec) : Decidable (a < b) :=
  inferInstanceAs (Decidable (a.num * 10 ^ b.exp < b.num * 10 ^ a.exp))

instance (n : ℕ) : OfNat Dec n := ⟨⟨(n : ℤ), 0⟩⟩

end Dec

/-- The fixed network-fee estimate of the transfer tools, `0.000005` SOL. -/
def solTransferFee : Dec := ⟨5, 6⟩

/-- The fixed fee estimate of the cross-chain tools, `0.06` SOL. -/
def ccSwapFee : Dec := ⟨6, 2⟩

/-! ## Confirmation classifiers -/

/-- Result of the swap / cross-chain confirmation classifiers
(`'confirm' | 'cancel' | 'invalid'` in the source). -/
inductive ConfirmResponse
  | confirm
  | cancel
  | invalid
deriving DecidableEq

namespace SwapTool

/-- `parseConfirmationResponse` of the `confirmSwap` tool module.  The source condition
`a || b || c && d` groups as `a || b || (c && d)` by JS precedence. -/
def parseConfirmationResponse (input : String) : ConfirmResponse :=
  let n := normJS input
  if n = "confirm swap" ∨ n = "yes swap" ∨
      (strIncludes n "confirm" ∧ strIncludes n "swap") then .confirm
  else if n = "cancel swap" ∨ n = "no swap" ∨
      (strIncludes n "cancel" ∧ strIncludes n "swap") then .cancel
  else .invalid

end SwapTool

namespace CrossChainTool

/-- `parseConfirmationResponse` of the `confirmCrossChainSwap` tool module. -/
def parseConfirmationResponse (input : String) : ConfirmResponse :=
  let n := normJS input
  if n = "confirm cross-chain swap" ∨ n = "confirm crosschain swap" ∨
      n = "confirm cross chain swap" ∨ n = "yes cross-chain swap" ∨
      n = "yes crosschain swap" ∨ n = "confirm swap" ∨
      (strIncludes n "confirm" ∧ strIncludes n "cross" ∧ strIncludes n "chain") ∨
      (strIncludes n "confirm" ∧ strIncludes n "crosschain") ∨
      (strIncludes n "yes" ∧ strIncludes n "cross" ∧ strIncludes n "chain") then .confirm
  else if n = "cancel cross-chain swap" ∨ n = "cancel crosschain swap" ∨
      n = "cancel cross chain swap" ∨ n = "no cross-chain swap" ∨
      n = "no crosschain swap" ∨ n = "cancel swap" ∨
      (strIncludes n "cancel" ∧ strIncludes n "cross" ∧ strIncludes n "chain") ∨
      (strIncludes n "cancel" ∧ strIncludes n "crosschain") ∨
      (strIncludes n "no" ∧ strIncludes n "cross" ∧ strIncludes n "chain") then .cancel
  else .invalid

end CrossChainTool

namespace TransferTool

/-- Result of `parseConfirmationCommand` of the `confirmTransaction` tool module.
The source encodes the simple cases as marker records
(`{amount: -1, recipient: "SIMPLE_CONFIRMATION"}` and
`{amount: -2, recipient: "SIMPLE_CANCELLATION"}`); the `full` case carries the
amount and recipient captured by the fallback pattern. -/
inductive ConfirmParse
  | simpleConfirm
  | simpleCancel
  | full (amount : Dec) (recipient : String)
deriving DecidableEq

/-- Drop a maximal run of whitespace. -/
def dropWs : List Char → List Char
  | [] => []
  | c :: cs => if isJsWs c then dropWs cs else c :: cs

/-- Match `\s+`: at least one whitespace character, consumed maximally (the next
pattern element is never a whitespace character, so maximal munch is equivalent to
the JS backtracking semantics here). -/
def ws1 : List Char → Option (List Char)
  | [] => none
  | c :: cs => if isJsWs c then some (dropWs cs) else none

/-- Match a literal case-insensitively (the source patterns carry the `i` flag),
returning the remaining input. -/
def litCI : List Char → List Char → Option (List Char)
  | [], cs => some cs
  | _ :: _, [] => none
  | p :: ps, c :: cs => if p.toLower = c.toLower then litCI ps cs else none

/-- Split off a maximal run of decimal digits. -/
def takeDigits : List Char → List Char × List Char
  | [] => ([], [])
  | c :: cs =>
    if c.isDigit then
      let (ds, rest) := takeDigits cs
      (c :: ds, rest)
    else ([], c :: cs)

/-- Numeric value of a digit run. -/
def digitsVal (ds : List Char) : ℕ :=
  ds.foldl (fun acc c => acc * 10 + (c.toNat - 48)) 0

/-- Match `\d+(?:\.\d+)?` and return the value `parseFloat` would produce, as an
exact decimal (decimal numerals round-trip exactly at the magnitudes the tool
accepts).  When a dot is not followed by a digit the optional group fails and the
dot is left in the remaining input, exactly as in the JS pattern. -/
def parseAmount (cs : List Char) : Option (Dec × List Char) :=
  let (ds, rest) := takeDigits cs
  if ds.isEmpty then none
  else
    match rest with
    | '.' :: rest2 =>
      let (fs, rest3) := takeDigits rest2
      if fs.isEmpty then some (⟨(digitsVal ds : ℤ), 0⟩, '.' :: rest2)
      else some (⟨(digitsVal ds : ℤ) * 10 ^ fs.length + (digitsVal fs : ℤ), fs.length⟩, rest3)
    | _ => some (⟨(digitsVal ds : ℤ), 0⟩, rest)

/-- The address class of the source pattern, `[1-9A-HJ-NP-Za-km-z]` under the `i`
flag: case-insensitivity makes the letter ranges jointly cover every ASCII letter,
so the class accepts all letters together with the digits 1-9. -/
def isBase58ishCI (c : Char) : Bool :=
  (c.isDigit && c != '0') || c.isAlpha

/-- Greedily take at most `max` characters satisfying `p`. -/
def takeWhileMax (p : Char → Bool) : Nat → List Char → List Char × List Char
  | _, [] => ([], [])
  | 0, c :: cs => ([], c :: cs)
  | m + 1, c :: cs =>
    if p c then
      let (t, r) := takeWhileMax p m cs
      (c :: t, r)
    else ([], c :: cs)

/-- Match `[1-9A-HJ-NP-Za-km-z]{32,44}` (with the `i` flag): greedily up to 44
class characters, requiring at least 32. -/
def matchAddr (cs : List Char) : Option (String × List Char) :=
  let (t, r) := takeWhileMax isBase58ishCI 44 cs
  if t.length ≥ 32 then some (String.mk t, r) else none

/-- Attempt the fallback pattern
`/confirm\s+send\s+(\d+(?:\.\d+)?)\s+sol\s+to\s+([1-9A-HJ-NP-Za-km-z]{32,44})/i`
at the head of the input. -/
def matchFullAt (cs : List Char) : Option (Dec × String) := do
  let r1 ← litCI "confirm".toList cs
  let r2 ← ws1 r1
  let r3 ← litCI "send".toList r2
  let r4 ← ws1 r3
  let (a, r5) ← parseAmount r4
  let r6 ← ws1 r5
  let r7 ← litCI "sol".toList r6
  let r8 ← ws1 r7
  let r9 ← litCI "to".toList r8
  let r10 ← ws1 r9
  let (addr, _) ← matchAddr r10
  pure (a, addr)

/-- The unanchored JS `input.match(pattern)`: try the pattern at each position,
leftmost match first. -/
def searchFull : List Char → Option (Dec × String)
  | [] => none
  | c :: cs =>
    match matchFullAt (c :: cs) with
    | some res => some res
    | none => searchFull cs

/-- `parseConfirmationCommand` of the `confirmTransaction` tool module: exact
normalised phrases (including the bare words `yes`/`y`/`confirm` and `no`/`n`)
first, then the full-command fallback pattern on the raw input, whose capture is
kept only when the captured amount is positive. -/
def parseConfirmationCommand (input : String) : Option ConfirmParse :=
  let n := normJS input
  if n = "confirm transaction" ∨ n = "yes transaction" ∨ n = "confirm send" ∨
      n = "yes" ∨ n = "y" ∨ n = "confirm" then some .simpleConfirm
  else if n = "cancel transaction" ∨ n = "no transaction" ∨ n = "cancel send" ∨
      n = "no" ∨ n = "n" then some .simpleCancel
  else
    match searchFull input.toList with
    | some (a, r) => if (0 : Dec) < a then some (.full a r) else none
    | none => none

end TransferTool

/-! ## Data model: the three pending-action records and the quotes they embed -/

/-- The `pendingTransaction` record of the `confirmTransaction` module. -/
structure PendingTransaction where
  amount : Dec
  recipient : String
  sender : String
deriving DecidableEq

/-- The Jupiter quote object stored verbatim in a pending swap.  `validUntil`
models the quote's validity deadline: the quote object is carried opaquely by the
implementation, which stores it at prepare time and passes it to the executor
without ever reading a validity field. -/
structure SwapQuote where
  outAmount : ℕ
  priceImpactPct : Dec
  validUntil : ℕ
deriving DecidableEq

/-- The `pendingSwap` record of the `swapTokens` module. -/
structure PendingSwap where
  inputMint : String
  outputMint : String
  inputAmount : Dec
  outputAmount : Dec
  inputToken : String
  outputToken : String
  slippage : Dec
  quote : SwapQuote
deriving DecidableEq

/-- The Mayan quote object stored verbatim in a pending cross-chain swap;
`validUntil` plays the same role as in `SwapQuote`. -/
structure MayanQuote where
  expectedAmountOut : Dec
  validUntil : ℕ
deriving DecidableEq

/-- The `pendingCrossChainSwap` record of the `prepareCrossChainSwap` module.
The stored amount is a decimal string in the source and is re-parsed with
`parseFloat` at confirm time; it is modelled by its exact rational value.
The stored `slippageBps`/`gasDrop` fields are never read by any embedded
operation and are omitted. -/
structure PendingCrossChainSwap where
  quote : MayanQuote
  fromToken : String
  toToken : String
  fromChain : String
  toChain : String
  amount : Dec
  destinationAddress : String
deriving DecidableEq

/-! ## `confirmSwap` (execute a pending same-chain swap) -/

/-- Environment of a `confirmSwap` call: the wallet boundary and the outcome the
Jupiter execution boundary (`executeJupiterSwap` + settlement await) would yield.
`now` is the wall-clock time at the call; the implementation never reads it. -/
structure SwapConfirmEnv where
  walletConfigured : Bool
  execResult : Except String String
  now : ℕ

/-- The distinguishable exits of `confirmSwap` (one constructor per return site). -/
inductive SwapConfirmOutcome
  | invalidResponse
  | cancelled
  | noPending
  | walletMissing
  | executedOk (signature : String)
  | executionFailed (err : String)
deriving DecidableEq

/-- Result of a `confirmSwap` call.  `pendingAfter` is the `pendingSwap` slot on
exit; `execAttempted` records whether the execution boundary was invoked;
`quoteUsed` records the quote handed to the executor. -/
structure SwapConfirmResult where
  success : Bool
  outcome : SwapConfirmOutcome
  pendingAfter : Option PendingSwap
  execAttempted : Bool
  quoteUsed : Option SwapQuote
deriving DecidableEq

/-- The `confirmSwap` tool.  Classify the reply; on cancel clear the slot; on
confirm consume the pending swap (failing when none), check the wallet (clearing
the slot when missing), then execute with the stored quote, clearing the slot on
both the success and the failure exit. -/
def confirmSwap (confirmation : String) (env : SwapConfirmEnv)
    (st : Option PendingSwap) : SwapConfirmResult :=
  match SwapTool.parseConfirmationResponse confirmation with
  | .invalid => ⟨false, .invalidResponse, st, false, none⟩
  | .cancel => ⟨false, .cancelled, none, false, none⟩
  | .confirm =>
    match st with
    | none => ⟨false, .noPending, none, false, none⟩
    | some p =>
      if env.walletConfigured then
        match env.execResult with
        | .ok sig => ⟨true, .executedOk sig, none, true, some p.quote⟩
        | .error e => ⟨false, .executionFailed e, none, true, some p.quote⟩
      else ⟨false, .walletMissing, none, false, none⟩

/-! ## `confirmCrossChainSwap` (execute a pending cross-chain swap) -/

/-- Environment of a `confirmCrossChainSwap` call: wallet boundary, the balance
the RPC connection reports (error = the lookup threw), and the outcome of the
Mayan `swapFromSolana` boundary.  `now` is never read by the implementation. -/
structure CCConfirmEnv where
  walletConfigured : Bool
  balance : Except String Dec
  execResult : Except String String
  now : ℕ

/-- The distinguishable exits of `confirmCrossChainSwap`. -/
inductive CCConfirmOutcome
  | invalidResponse
  | cancelled
  | noPending
  | walletMissing
  | insufficientFunds (balanceHeld required : Dec)
  | evmUnsupported
  | executedOk (transactionHash : String)
  | executionFailed (err : String)
deriving DecidableEq

/-- Result of a `confirmCrossChainSwap` call. -/
structure CCConfirmResult where
  success : Bool
  outcome : CCConfirmOutcome
  pendingAfter : Option PendingCrossChainSwap
  execAttempted : Bool
  quoteUsed : Option MayanQuote
deriving DecidableEq

/-- The `confirmCrossChainSwap` tool.  On confirm with a pending swap whose source
chain is solana: wallet gate, final balance re-check against
`amount + 0.06` (the fixed fee estimate), then execution via the stored Mayan
quote; every one of those exits (and the non-solana exit) clears the slot. -/
def confirmCrossChainSwap (confirmation : String) (env : CCConfirmEnv)
    (st : Option PendingCrossChainSwap) : CCConfirmResult :=
  match CrossChainTool.parseConfirmationResponse confirmation with
  | .invalid => ⟨false, .invalidResponse, st, false, none⟩
  | .cancel => ⟨false, .cancelled, none, false, none⟩
  | .confirm =>
    match st with
    | none => ⟨false, .noPending, none, false, none⟩
    | some p =>
      if lowerStr p.fromChain = "solana" then
        if env.walletConfigured then
          match env.balance with
          | .error e => ⟨false, .executionFailed e, none, false, none⟩
          | .ok b =>
            if b < p.amount + ccSwapFee then
              ⟨false, .insufficientFunds b (p.amount + ccSwapFee), none, false, none⟩
            else
              match env.execResult with
              | .ok h => ⟨true, .executedOk h, none, true, some p.quote⟩
              | .error e => ⟨false, .executionFailed e, none, true, some p.quote⟩
        else ⟨false, .walletMissing, none, false, none⟩
      else ⟨false, .evmUnsupported, none, false, none⟩

/-! ## `confirmTransaction` (execute a confirmed SOL transfer) -/

/-- Environment of a `confirmTransaction` call: address validation (the
`new PublicKey` boundary), wallet boundary, the balance the RPC reports, and the
outcome of `sendAndConfirmTransaction`.  `now` is never read. -/
structure TransferConfirmEnv where
  validAddress : String → Bool
  walletConfigured : Bool
  walletPub : String
  balance : Except String Dec
  execResult : Except String String
  now : ℕ

/-- The distinguishable exits of `confirmTransaction`. -/
inductive TransferConfirmOutcome
  | invalidConfirmation
  | cancelled
  | noPending
  | invalidAddress
  | walletMissing
  | amountTooLarge
  | insufficientBalance (balanceHeld required : Dec)
  | executedOk (signature : String)
  | executionFailed (err : String)
deriving DecidableEq

/-- Result of a `confirmTransaction` call. -/
structure TransferConfirmResult where
  success : Bool
  outcome : TransferConfirmOutcome
  pendingAfter : Option PendingTransaction
  execAttempted : Bool
deriving DecidableEq

/-- The shared tail of `confirmTransaction` after the amount and recipient have
been resolved: address validity, wallet, the 1 SOL ceiling, the re-check
`balance ≥ amount + 0.000005`, then submission.  `pendingNow` is the value of the
`pendingTransaction` slot at this point; no branch of this tail touches it. -/
def runTransfer (amount : Dec) (recipient : String)
    (pendingNow : Option PendingTransaction) (env : TransferConfirmEnv) :
    TransferConfirmResult :=
  if env.validAddress recipient then
    if env.walletConfigured then
      if (1 : Dec) < amount then ⟨false, .amountTooLarge, pendingNow, false⟩
      else
        match env.balance with
        | .error e => ⟨false, .executionFailed e, pendingNow, false⟩
        | .ok b =>
          if b < amount + solTransferFee then
            ⟨false, .insufficientBalance b (amount + solTransferFee), pendingNow, false⟩
          else
            match env.execResult with
            | .ok sig => ⟨true, .executedOk sig, pendingNow, true⟩
            | .error e => ⟨false, .executionFailed e, pendingNow, true⟩
    else ⟨false, .walletMissing, pendingNow, false⟩
  else ⟨false, .invalidAddress, pendingNow, false⟩

/-- The `confirmTransaction` tool.  A simple confirmation consumes the pending
transaction (clearing the slot before executing); a simple cancellation clears
the slot; the full-command fallback runs with the amount and recipient captured
from the message and leaves the `pendingTransaction` slot untouched. -/
def confirmTransaction (command : String) (env : TransferConfirmEnv)
    (st : Option PendingTransaction) : TransferConfirmResult :=
  match TransferTool.parseConfirmationCommand command with
  | none => ⟨false, .invalidConfirmation, st, false⟩
  | some .simpleCancel => ⟨false, .cancelled, none, false⟩
  | some .simpleConfirm =>
    match st with
    | none => ⟨false, .noPending, none, false⟩
    | some pt => runTransfer pt.amount pt.recipient none env
  | some (.full a r) => runTransfer a r st env

/-! ## `sendSolTransaction` / `executeTransaction` (prepare a transfer) -/

/-- Environment of a transfer prepare call (`executeTransaction` in the source). -/
structure TransferPrepareEnv where
  validAddress : String → Bool
  walletConfigured : Bool
  walletPub : String
  balance : Except String Dec

/-- The distinguishable exits of `executeTransaction`. -/
inductive TransferPrepareOutcome
  | invalidAddress
  | walletMissing
  | amountTooLarge
  | balanceCheckFailed (err : String)
  | insufficientBalance (balanceHeld required : Dec)
  | prepared
deriving DecidableEq

/-- Result of a transfer prepare call.  `quoteCalled` records whether a
quote-provider boundary was invoked; the transfer path contains no such call, so
every exit carries `false`. -/
structure TransferPrepareResult where
  success : Bool
  outcome : TransferPrepareOutcome
  pendingAfter : Option PendingTransaction
  quoteCalled : Bool
deriving DecidableEq

/-- `executeTransaction` of the `sendSolTransaction` tool: address validity,
wallet, the 1 SOL ceiling, then `balance ≥ amount + 0.000005`; on success the
pending transaction is stored via `setPendingTransaction`. -/
def executeTransaction (amount : Dec) (recipient : String)
    (env : TransferPrepareEnv) (st : Option PendingTransaction) :
    TransferPrepareResult :=
  if env.validAddress recipient then
    if env.walletConfigured then
      if (1 : Dec) < amount then ⟨false, .amountTooLarge, st, false⟩
      else
        match env.balance with
        | .error e => ⟨false, .balanceCheckFailed e, st, false⟩
        | .ok b =>
          let totalCost := amount + solTransferFee
          if b < totalCost then ⟨false, .insufficientBalance b totalCost, st, false⟩
          else ⟨true, .prepared, some ⟨amount, recipient, env.walletPub⟩, false⟩
    else ⟨false, .walletMissing, st, false⟩
  else ⟨false, .invalidAddress, st, false⟩

/-! ## `swapTokens` (prepare a same-chain swap) -/

/-- A resolved token (`resolveTokenMint` result). -/
structure TokenData where
  mint : String
  symbol : String
  decimals : ℕ
deriving DecidableEq

/-- The three command shapes `parseSwapCommand` produces. -/
inductive SwapKind
  | buy
  | sell
  | convert
deriving DecidableEq

/-- A parsed swap command.  For `buy` the source token is SOL and `fromToken` is
unused; for `sell` the target is SOL. -/
structure SwapParsed where
  kind : SwapKind
  amount : Dec
  fromToken : String
  toToken : String
deriving DecidableEq

/-- Environment of a `swapTokens` prepare call.  `balanceInSol` is the wallet's
balance at the call; the implementation never queries it (no balance check exists
on this path).  `resolve` is the `resolveTokenMint` boundary (known-token table
plus Jupiter search); `quote` is the Jupiter quote API boundary. -/
structure SwapPrepareEnv where
  walletConfigured : Bool
  balanceInSol : Dec
  resolve : String → Option TokenData
  quote : Except String SwapQuote

/-- The distinguishable exits of `swapTokens`. -/
inductive SwapPrepareOutcome
  | invalidCommand
  | amountTooLarge
  | walletMissing
  | tokenNotFound
  | quoteFailed (err : String)
  | prepared
deriving DecidableEq

/-- Result of a `swapTokens` prepare call. -/
structure SwapPrepareResult where
  success : Bool
  outcome : SwapPrepareOutcome
  pendingAfter : Option PendingSwap
  quoteCalled : Bool
deriving DecidableEq

/-- The `swapTokens` tool: parse, the 10-unit ceiling, wallet, token resolution,
Jupiter quote, then the pending swap is stored (slippage fixed at 5%).  The
output amount is `outAmount` scaled by the output token's decimals. -/
def swapTokens (parsed : Option SwapParsed) (env : SwapPrepareEnv)
    (st : Option PendingSwap) : SwapPrepareResult :=
  match parsed with
  | none => ⟨false, .invalidCommand, st, false⟩
  | some p =>
    if (10 : Dec) < p.amount then ⟨false, .amountTooLarge, st, false⟩
    else if env.walletConfigured then
      let inputTok :=
        match p.kind with
        | .buy => env.resolve "sol"
        | .sell => env.resolve p.fromToken
        | .convert => env.resolve p.fromToken
      let outputTok :=
        match p.kind with
        | .buy => env.resolve p.toToken
        | .sell => env.resolve "sol"
        | .convert => env.resolve p.toToken
      match inputTok, outputTok with
      | some it, some ot =>
        match env.quote with
        | .error e => ⟨false, .quoteFailed e, st, true⟩
        | .ok q =>
          let outputAmount : Dec := ⟨(q.outAmount : ℤ), ot.decimals⟩
          ⟨true, .prepared,
            some ⟨it.mint, ot.mint, p.amount, outputAmount, it.symbol, ot.symbol, 5, q⟩,
            true⟩
      | _, _ => ⟨false, .tokenNotFound, st, false⟩
    else ⟨false, .walletMissing, st, false⟩

/-! ## `prepareCrossChainSwap` (prepare a cross-chain swap) -/

/-- A parsed cross-chain swap command. -/
structure CCParsed where
  amount : Dec
  fromToken : String
  fromChain : String
  toToken : String
  toChain : String
deriving DecidableEq

/-- The `SUPPORTED_CHAINS` list of the source. -/
def SUPPORTED_CHAINS : List String :=
  ["solana", "ethereum", "bsc", "polygon", "avalanche", "arbitrum", "optimism", "base"]

/-- Environment of a `prepareCrossChainSwap` call.  `balance` is the RPC balance
lookup (`none` models the lookup throwing); `resolveContract` is the
`resolveTokenContract` boundary (token, chain); `quotes` is the Mayan
`fetchQuote` boundary. -/
structure CCPrepareEnv where
  walletConfigured : Bool
  balance : Option Dec
  resolveContract : String → String → Option String
  quotes : Except String (List MayanQuote)

/-- The distinguishable exits of `prepareCrossChainSwap`. -/
inductive CCPrepareOutcome
  | invalidCommand
  | unsupportedChain
  | destinationRequired
  | amountTooLarge
  | walletMissing
  | balanceCheckFailed
  | insufficientBalance (balanceHeld required : Dec)
  | insufficientFeeBalance (balanceHeld required : Dec)
  | tokenNotFound
  | noRoute
  | prepareFailed (err : String)
  | prepared
deriving DecidableEq

/-- Result of a `prepareCrossChainSwap` call. -/
structure CCPrepareResult where
  success : Bool
  outcome : CCPrepareOutcome
  pendingAfter : Option PendingCrossChainSwap
  quoteCalled : Bool
deriving DecidableEq

/-- The token-resolution and Mayan-quote stage of `prepareCrossChainSwap`; on a
routable quote the pending cross-chain swap is stored (token symbols
upper-cased, as in the source). -/
def ccQuoteStage (p : CCParsed) (destinationAddress : String) (env : CCPrepareEnv)
    (st : Option PendingCrossChainSwap) : CCPrepareResult :=
  match env.resolveContract p.fromToken p.fromChain,
      env.resolveContract p.toToken p.toChain with
  | some _, some _ =>
    match env.quotes with
    | .error e => ⟨false, .prepareFailed e, st, true⟩
    | .ok [] => ⟨false, .noRoute, st, true⟩
    | .ok (q :: _) =>
      ⟨true, .prepared,
        some ⟨q, upperStr p.fromToken, upperStr p.toToken, p.fromChain, p.toChain,
          p.amount, destinationAddress⟩,
        true⟩
  | _, _ => ⟨false, .tokenNotFound, st, false⟩

/-- The `prepareCrossChainSwap` tool: parse, chain support, destination address
required, the 100-token ceiling, then — only when the source chain is solana —
wallet and balance gates (`amount + 0.06` when bridging SOL, a flat `0.06` fee
floor otherwise), and finally resolution and quoting. -/
def prepareCrossChainSwap (parsed : Option CCParsed) (destinationAddress : String)
    (env : CCPrepareEnv) (st : Option PendingCrossChainSwap) : CCPrepareResult :=
  match parsed with
  | none => ⟨false, .invalidCommand, st, false⟩
  | some p =>
    if lowerStr p.fromChain ∈ SUPPORTED_CHAINS ∧
        lowerStr p.toChain ∈ SUPPORTED_CHAINS then
      if destinationAddress = "" then ⟨false, .destinationRequired, st, false⟩
      else if (100 : Dec) < p.amount then ⟨false, .amountTooLarge, st, false⟩
      else if lowerStr p.fromChain = "solana" then
        if env.walletConfigured then
          match env.balance with
          | none => ⟨false, .balanceCheckFailed, st, false⟩
          | some b =>
            if lowerStr p.fromToken = "sol" then
              if b < p.amount + ccSwapFee then
                ⟨false, .insufficientBalance b (p.amount + ccSwapFee), st, false⟩
              else ccQuoteStage p destinationAddress env st
            else
              if b < ccSwapFee then
                ⟨false, .insufficientFeeBalance b ccSwapFee, st, false⟩
              else ccQuoteStage p destinationAddress env st
        else ⟨false, .walletMissing, st, false⟩
      else ccQuoteStage p destinationAddress env st
    else ⟨false, .unsupportedChain, st, false⟩

/-! ## The combined store: one module-level slot per kind -/

/-- The three module-level pending slots.  They live in three different modules
of the source (`confirmTransaction`, `swapTokens`, `prepareCrossChainSwap`); no
owner key exists — every caller shares these slots. -/
structure GlobalState where
  pendingTransaction : Option PendingTransaction
  pendingSwap : Option PendingSwap
  pendingCrossChainSwap : Option PendingCrossChainSwap
deriving DecidableEq

/-- The number of pending actions currently held across all kinds. -/
def pendingCount (g : GlobalState) : ℕ :=
  (if g.pendingTransaction.isSome then 1 else 0) +
    (if g.pendingSwap.isSome then 1 else 0) +
    (if g.pendingCrossChainSwap.isSome then 1 else 0)

/-- A transfer prepare call acting on the combined store: `executeTransaction`
assigns only the `pendingTransaction` slot of its own module. -/
def runTransferPrepare (amount : Dec) (recipient : String)
    (env : TransferPrepareEnv) (g : GlobalState) :
    TransferPrepareResult × GlobalState :=
  let r := executeTransaction amount recipient env g.pendingTransaction
  (r, { g with pendingTransaction := r.pendingAfter })

/-- A swap prepare call acting on the combined store: `swapTokens` assigns only
the `pendingSwap` slot of its own module. -/
def runSwapPrepare (parsed : Option SwapParsed) (env : SwapPrepareEnv)
    (g : GlobalState) : SwapPrepareResult × GlobalState :=
  let r := swapTokens parsed env g.pendingSwap
  (r, { g with pendingSwap := r.pendingAfter })

/-- A cross-chain prepare call acting on the combined store:
`prepareCrossChainSwap` assigns only the `pendingCrossChainSwap` slot of its own
module. -/
def runCCPrepare (parsed : Option CCParsed) (destinationAddress : String)
    (env : CCPrepareEnv) (g : GlobalState) : CCPrepareResult × GlobalState :=
  let r := prepareCrossChainSwap parsed destinationAddress env g.pendingCrossChainSwap
  (r, { g with pendingCrossChainSwap := r.pendingAfter })

/-! ## `getJupiterTokens` (the token-list adapter with retry and cache) -/

/-- A token entry of the Jupiter token list (content irrelevant here). -/
abbrev JupToken := String

/-- `CACHE_DURATION` of the source: 5 minutes in milliseconds. -/
def CACHE_DURATION : ℕ := 5 * 60 * 1000

/-- The module state of `jupiterUtils`: the cached token list and its timestamp. -/
structure JupState where
  cachedTokens : List JupToken
  cacheTimestamp : ℕ
deriving DecidableEq

/-- Result of one `getJupiterTokens` call: the returned list, how many network
requests were issued during the call, and the module state on exit. -/
structure JupCallResult where
  tokens : List JupToken
  networkAttempts : ℕ
  stateAfter : JupState
deriving DecidableEq

/-- The retry loop of `getJupiterTokens`, unrolled for the configured
`retries = 2` (three attempts in all, fixed 1 s delay between them): the first
successful attempt refreshes the cache; on exhaustion the (possibly empty)
cached list is returned and the state is unchanged. -/
def jupFetch (st : JupState) (now : ℕ)
    (net : ℕ → Except String (List JupToken)) : JupCallResult :=
  match net 0 with
  | .ok ts => ⟨ts, 1, ⟨ts, now⟩⟩
  | .error _ =>
    match net 1 with
    | .ok ts => ⟨ts, 2, ⟨ts, now⟩⟩
    | .error _ =>
      match net 2 with
      | .ok ts => ⟨ts, 3, ⟨ts, now⟩⟩
      | .error _ => ⟨st.cachedTokens, 3, st⟩

/-- `getJupiterTokens`: serve the cache when it is non-empty and younger than
`CACHE_DURATION`, otherwise fetch with retries.  `net k` is the response the
network would give to the k-th request of this call. -/
def getJupiterTokens (st : JupState) (now : ℕ)
    (net : ℕ → Except String (List JupToken)) : JupCallResult :=
  if st.cachedTokens ≠ [] ∧ now - st.cacheTimestamp < CACHE_DURATION then
    ⟨st.cachedTokens, 0, st⟩
  else jupFetch st now net

/-- A sequence of `getJupiterTokens` calls (each given by its wall-clock time and
its network behaviour), returning the final state and the per-call network
attempt counts. -/
def runJupCalls (st : JupState) :
    List (ℕ × (ℕ → Except String (List JupToken))) → JupState × List ℕ
  | [] => (st, [])
  | (now, net) :: rest =>
    let r := getJupiterTokens st now net
    let (stFinal, counts) := runJupCalls r.stateAfter rest
    (stFinal, r.networkAttempts :: counts)

/-! ## Sample values used by the concrete statements below -/

/-- A syntactically valid 44-character recipient address. -/
def addrSample : String := "2Dk2je4iif7yttyGMLbjc8JrqUSMw2wqLPuHxVsJZ2Bg"

/-- A Jupiter quote whose validity deadline (`validUntil = 0`) lies before every
positive instant. -/
def sampleSwapQuote : SwapQuote := ⟨1000, 0, 0⟩

/-- A pending same-chain swap embedding `sampleSwapQuote`. -/
def samplePendingSwap : PendingSwap :=
  ⟨"MintA", "MintB", 1, 100, "SOL", "BONK", 5, sampleSwapQuote⟩

/-- A Mayan quote whose validity deadline lies before every positive instant. -/
def sampleMayanQuote : MayanQuote := ⟨1, 0⟩

/-- A pending cross-chain swap from solana embedding `sampleMayanQuote`. -/
def samplePendingCC : PendingCrossChainSwap :=
  ⟨sampleMayanQuote, "SOL", "USDC", "solana", "ethereum", 1, "0xdest"⟩

/-- A pending transfer of 0.5 SOL to `addrSample`. -/
def samplePendingTransfer : PendingTransaction := ⟨⟨5, 1⟩, addrSample, "SenderPubKey"⟩

/-- A `confirmSwap` environment: wallet configured, execution succeeds, time 1000. -/
def sampleSwapEnv : SwapConfirmEnv := ⟨true, .ok "SIG", 1000⟩

/-- A `confirmCrossChainSwap` environment: wallet configured, balance 10 SOL,
execution succeeds, time 1000. -/
def sampleCCEnv : CCConfirmEnv := ⟨true, .ok 10, .ok "HASH", 1000⟩

/-- A `confirmTransaction` environment: every address valid, wallet configured,
balance 10 SOL, execution succeeds, time 1000. -/
def sampleTransferEnv : TransferConfirmEnv :=
  ⟨fun _ => true, true, "SenderPubKey", .ok 10, .ok "SIG", 1000⟩

/-! ## Helper lemmas -/

/-- No branch of the shared execution tail of `confirmTransaction` writes the
pending slot: it exits with the slot exactly as it received it. -/
theorem runTransfer_pendingAfter (amount : Dec) (recipient : String)
    (pendingNow : Option PendingTransaction) (env : TransferConfirmEnv) :
    (runTransfer amount recipient pendingNow env).pendingAfter = pendingNow := by
  unfold runTransfer
  split
  · split
    · split
      · rfl
      · split
        · rfl
        · split
          · rfl
          · split <;> rfl
    · rfl
  · rfl

/-! ## C9 -/

/-- C9: in the swap confirmation classifier, every input string that contains
both the substrings "confirm" and "swap" (case-insensitively, after trimming) is
classified as confirm — even when it also contains "cancel" or "no" — and the
cancel branch is reachable only for inputs that fail the confirm condition. -/
theorem C9_confirm_takes_priority (s : String) :
    (strIncludes (normJS s) "confirm" = true → strIncludes (normJS s) "swap" = true →
      SwapTool.parseConfirmationResponse s = .confirm) ∧
    (SwapTool.parseConfirmationResponse s = .cancel →
      ¬(strIncludes (normJS s) "confirm" = true ∧ strIncludes (normJS s) "swap" = true)) := by
  constructor
  · intro h1 h2
    unfold SwapTool.parseConfirmationResponse
    rw [if_pos]
    exact Or.inr (Or.inr ⟨h1, h2⟩)
  · intro h hc
    unfold SwapTool.parseConfirmationResponse at h
    by_cases hcond : (normJS s = "confirm swap" ∨ normJS s = "yes swap" ∨
        (strIncludes (normJS s) "confirm" ∧ strIncludes (normJS s) "swap"))
    · rw [if_pos hcond] at h
      exact ConfirmResponse.noConfusion h
    · exact hcond (Or.inr (Or.inr hc))

/-- Witness for `C9_confirm_takes_priority`: a message containing "cancel", "no",
"confirm" and "swap" together is classified as confirm. -/
theorem C9_confirm_takes_priority_witness :
    strIncludes (normJS "no, cancel that... confirm swap") "confirm" = true ∧
    strIncludes (normJS "no, cancel that... confirm swap") "swap" = true ∧
    SwapTool.parseConfirmationResponse "no, cancel that... confirm swap" = .confirm :=
  ⟨by decide, by decide,
    (C9_confirm_takes_priority "no, cancel that... confirm swap").1 (by decide) (by decide)⟩

/-! ## C10 -/

/-- C10: in both the swap and the cross-chain confirm tools the cancel path
returns `success = false` — the same flag value as an execution failure — and
`success = true` occurs only when the execution boundary was invoked and
reported success, so the flag alone cannot separate a successful cancellation
from a failed execution. -/
theorem C10_cancel_flag_matches_failure :
    (∀ cmd env st, SwapTool.parseConfirmationResponse cmd = .cancel →
      (confirmSwap cmd env st).success = false ∧
        (confirmSwap cmd env st).outcome = .cancelled) ∧
    (∀ cmd env st, CrossChainTool.parseConfirmationResponse cmd = .cancel →
      (confirmCrossChainSwap cmd env st).success = false ∧
        (confirmCrossChainSwap cmd env st).outcome = .cancelled) ∧
    (∀ cmd env st, (confirmSwap cmd env st).success = true →
      (confirmSwap cmd env st).execAttempted = true ∧ ∃ sig, env.execResult = .ok sig) ∧
    (∀ cmd env st, (confirmCrossChainSwap cmd env st).success = true →
      (confirmCrossChainSwap cmd env st).execAttempted = true ∧
        ∃ h, env.execResult = .ok h) ∧
    (∀ cmd env st p e, SwapTool.parseConfirmationResponse cmd = .confirm →
      st = some p → env.walletConfigured = true → env.execResult = .error e →
      (confirmSwap cmd env st).success = false ∧
        (confirmSwap cmd env st).execAttempted = true) := by
  refine ⟨?_, ?_, ?_, ?_, ?_⟩
  · intro cmd env st h
    unfold confirmSwap
    rw [h]
    exact ⟨rfl, rfl⟩
  · intro cmd env st h
    unfold confirmCrossChainSwap
    rw [h]
    exact ⟨rfl, rfl⟩
  · intro cmd env st h
    cases hp : SwapTool.parseConfirmationResponse cmd <;>
      simp only [confirmSwap, hp] at h ⊢
    · cases st with
      | none => simp at h
      | some p =>
        cases hw : env.walletConfigured <;> simp only [hw] at h ⊢
        · simp at h
        · cases he : env.execResult with
          | error e => simp [he] at h
          | ok sig =>
            simp only [he] at h ⊢
            exact ⟨by simp, sig, rfl⟩
    · simp at h
    · simp at h
  · intro cmd env st h
    cases hp : CrossChainTool.parseConfirmationResponse cmd <;>
      simp only [confirmCrossChainSwap, hp] at h ⊢
    · cases st with
      | none => simp at h
      | some p =>
        dsimp only at h ⊢
        by_cases hc : lowerStr p.fromChain = "solana"
        · simp only [hc, if_pos] at h ⊢
          cases hw : env.walletConfigured <;> simp only [hw] at h ⊢
          · simp at h
          · cases hb : env.balance <;> simp only [hb] at h ⊢
            · simp at h
            · rename_i b
              by_cases hlt : b < p.amount + ccSwapFee
              · rw [if_pos hlt] at h
                simp at h
              · rw [if_neg hlt] at h ⊢
                cases he : env.execResult with
                | error e => simp [he] at h
                | ok hash =>
                  simp only [he] at h ⊢
                  exact ⟨by simp, hash, rfl⟩
        · rw [if_neg hc] at h
          simp at h
    · simp at h
    · simp at h
  · intro cmd env st p e hp hst hw he
    subst hst
    unfold confirmSwap
    rw [hp, hw, he]
    exact ⟨rfl, rfl⟩

/-- Witness for `C10_cancel_flag_matches_failure`, instantiating every conjunct:
a cancel run, a successful run, and a failing run of the confirm tools. -/
theorem C10_cancel_flag_matches_failure_witness :
    ((confirmSwap "cancel swap" sampleSwapEnv (some samplePendingSwap)).success = false ∧
      (confirmSwap "cancel swap" sampleSwapEnv (some samplePendingSwap)).outcome = .cancelled) ∧
    ((confirmCrossChainSwap "cancel cross-chain swap" sampleCCEnv
        (some samplePendingCC)).success = false ∧
      (confirmCrossChainSwap "cancel cross-chain swap" sampleCCEnv
        (some samplePendingCC)).outcome = .cancelled) ∧
    ((confirmSwap "confirm swap" sampleSwapEnv (some samplePendingSwap)).execAttempted = true ∧
      ∃ sig, sampleSwapEnv.execResult = .ok sig) ∧
    ((confirmCrossChainSwap "confirm cross-chain swap" sampleCCEnv
        (some samplePendingCC)).execAttempted = true ∧
      ∃ h, sampleCCEnv.execResult = .ok h) ∧
    ((confirmSwap "confirm swap" ⟨true, .error "boom", 0⟩ (some samplePendingSwap)).success = false ∧
      (confirmSwap "confirm swap" ⟨true, .error "boom", 0⟩
        (some samplePendingSwap)).execAttempted = true) :=
  ⟨C10_cancel_flag_matches_failure.1 "cancel swap" sampleSwapEnv (some samplePendingSwap)
      (by decide),
    C10_cancel_flag_matches_failure.2.1 "cancel cross-chain swap" sampleCCEnv
      (some samplePendingCC) (by decide),
    C10_cancel_flag_matches_failure.2.2.1 "confirm swap" sampleSwapEnv (some samplePendingSwap)
      (by decide),
    C10_cancel_flag_matches_failure.2.2.2.1 "confirm cross-chain swap" sampleCCEnv
      (some samplePendingCC) (by decide),
    C10_cancel_flag_matches_failure.2.2.2.2 "confirm swap" ⟨true, .error "boom", 0⟩
      (some samplePendingSwap) samplePendingSwap "boom" (by decide) rfl rfl rfl⟩

/-! ## C1 -/

/-- C1 counterexample: with a pending transaction in the store, the full-command
confirmation `confirm send 0.5 sol to <address>` runs to a successful execution
exit of `confirmTransaction`, yet a subsequent read of the pending slot still
returns the stale pending action — refuting the claim that every terminal
confirm/execute outcome clears the store. -/
theorem C1_full_confirm_leaves_pending :
    (confirmTransaction
        "confirm send 0.5 sol to 2Dk2je4iif7yttyGMLbjc8JrqUSMw2wqLPuHxVsJZ2Bg"
        sampleTransferEnv (some samplePendingTransfer)).success = true ∧
    (confirmTransaction
        "confirm send 0.5 sol to 2Dk2je4iif7yttyGMLbjc8JrqUSMw2wqLPuHxVsJZ2Bg"
        sampleTransferEnv (some samplePendingTransfer)).pendingAfter
      = some samplePendingTransfer := by
  constructor
  · decide
  · decide

/-- C1 (amended): every non-invalid exit of `confirmSwap` and of
`confirmCrossChainSwap` leaves the pending slot empty, and so do the
simple-confirmation and cancellation exits of `confirmTransaction`; but the
full-command confirmation path of `confirmTransaction` leaves the
`pendingTransaction` slot exactly as it was, so an execute success or failure
through that path keeps the stale pending action in the store.  (No expiry
mechanism exists in the code.) -/
theorem C1_clear_on_exit :
    (∀ cmd env st, (confirmSwap cmd env st).outcome ≠ .invalidResponse →
      (confirmSwap cmd env st).pendingAfter = none) ∧
    (∀ cmd env st, (confirmCrossChainSwap cmd env st).outcome ≠ .invalidResponse →
      (confirmCrossChainSwap cmd env st).pendingAfter = none) ∧
    (∀ cmd env st,
      (TransferTool.parseConfirmationCommand cmd = some .simpleConfirm ∨
        TransferTool.parseConfirmationCommand cmd = some .simpleCancel) →
      (confirmTransaction cmd env st).pendingAfter = none) ∧
    (∀ cmd env st a r, TransferTool.parseConfirmationCommand cmd = some (.full a r) →
      (confirmTransaction cmd env st).pendingAfter = st) := by
  refine ⟨?_, ?_, ?_, ?_⟩
  · intro cmd env st h
    cases hp : SwapTool.parseConfirmationResponse cmd <;>
      simp only [confirmSwap, hp] at h ⊢
    case confirm =>
      cases st with
      | none => rfl
      | some p =>
        dsimp only
        cases env.walletConfigured
        · simp
        · cases env.execResult <;> simp
    case invalid => exact absurd rfl h
  · intro cmd env st h
    cases hp : CrossChainTool.parseConfirmationResponse cmd <;>
      simp only [confirmCrossChainSwap, hp] at h ⊢
    case confirm =>
      cases st with
      | none => rfl
      | some p =>
        dsimp only
        by_cases hc : lowerStr p.fromChain = "solana"
        · simp only [hc, if_pos]
          cases env.walletConfigured
          · simp
          · cases env.balance with
            | error e => simp
            | ok b =>
              by_cases hlt : b < p.amount + ccSwapFee
              · simp [hlt]
              · cases env.execResult <;> simp [hlt]
        · simp [hc]
    case invalid => exact absurd rfl h
  · intro cmd env st h
    cases h with
    | inl h =>
      unfold confirmTransaction
      rw [h]
      cases st with
      | none => rfl
      | some pt => exact runTransfer_pendingAfter pt.amount pt.recipient none env
    | inr h =>
      unfold confirmTransaction
      rw [h]
  · intro cmd env st a r h
    unfold confirmTransaction
    rw [h]
    exact runTransfer_pendingAfter a r st env

/-- Witness for `C1_clear_on_exit`, instantiating each conjunct on a concrete
run: a cancelled swap, a cancelled cross-chain swap, a simple transfer
confirmation, and a full-command transfer confirmation. -/
theorem C1_clear_on_exit_witness :
    ((confirmSwap "cancel swap" sampleSwapEnv (some samplePendingSwap)).outcome
        ≠ .invalidResponse) ∧
    (confirmSwap "cancel swap" sampleSwapEnv (some samplePendingSwap)).pendingAfter = none ∧
    (confirmCrossChainSwap "cancel cross-chain swap" sampleCCEnv
        (some samplePendingCC)).pendingAfter = none ∧
    (confirmTransaction "confirm transaction" sampleTransferEnv
        (some samplePendingTransfer)).pendingAfter = none ∧
    (confirmTransaction
        "confirm send 0.5 sol to 2Dk2je4iif7yttyGMLbjc8JrqUSMw2wqLPuHxVsJZ2Bg"
        sampleTransferEnv (some samplePendingTransfer)).pendingAfter
      = some samplePendingTransfer :=
  ⟨by decide,
    C1_clear_on_exit.1 "cancel swap" sampleSwapEnv (some samplePendingSwap) (by decide),
    C1_clear_on_exit.2.1 "cancel cross-chain swap" sampleCCEnv (some samplePendingCC)
      (by decide),
    C1_clear_on_exit.2.2.1 "confirm transaction" sampleTransferEnv
      (some samplePendingTransfer) (Or.inl (by decide)),
    C1_clear_on_exit.2.2.2
      "confirm send 0.5 sol to 2Dk2je4iif7yttyGMLbjc8JrqUSMw2wqLPuHxVsJZ2Bg"
      sampleTransferEnv (some samplePendingTransfer) ⟨5, 1⟩ addrSample (by decide)⟩

/-! ## C3 -/

/-- C3 counterexample: the stored quote of `samplePendingSwap` expired at instant
0, the confirm arrives at instant 1000, and `confirmSwap` nevertheless invokes
the execution boundary with that stale quote and reports success — refuting the
claim that a confirm after the quote's validity window fails with QuoteExpired
and does not execute. -/
theorem C3_expired_quote_executes :
    sampleSwapQuote.validUntil < sampleSwapEnv.now ∧
    (confirmSwap "confirm swap" sampleSwapEnv (some samplePendingSwap)).execAttempted = true ∧
    (confirmSwap "confirm swap" sampleSwapEnv (some samplePendingSwap)).success = true ∧
    (confirmSwap "confirm swap" sampleSwapEnv
        (some samplePendingSwap)).quoteUsed = some sampleSwapQuote := by
  refine ⟨by decide, by decide, by decide, by decide⟩

/-- C3 (amended): neither `confirmSwap` nor `confirmCrossChainSwap` checks quote
expiry — their results are independent of the call time, and once the
pending-action, wallet (and, cross-chain, balance) gates pass they invoke the
execution boundary with exactly the stored quote, never a fresh one. -/
theorem C3_no_expiry_check :
    (∀ cmd (w : Bool) (ex : Except String String) st t t',
      confirmSwap cmd ⟨w, ex, t⟩ st = confirmSwap cmd ⟨w, ex, t'⟩ st) ∧
    (∀ cmd env st p, SwapTool.parseConfirmationResponse cmd = .confirm →
      st = some p → env.walletConfigured = true →
      (confirmSwap cmd env st).execAttempted = true ∧
        (confirmSwap cmd env st).quoteUsed = some p.quote) ∧
    (∀ cmd (w : Bool) (bal : Except String Dec) (ex : Except String String) st t t',
      confirmCrossChainSwap cmd ⟨w, bal, ex, t⟩ st
        = confirmCrossChainSwap cmd ⟨w, bal, ex, t'⟩ st) ∧
    (∀ cmd env st p b, CrossChainTool.parseConfirmationResponse cmd = .confirm →
      st = some p → lowerStr p.fromChain = "solana" → env.walletConfigured = true →
      env.balance = .ok b → ¬(b < p.amount + ccSwapFee) →
      (confirmCrossChainSwap cmd env st).execAttempted = true ∧
        (confirmCrossChainSwap cmd env st).quoteUsed = some p.quote) := by
  refine ⟨?_, ?_, ?_, ?_⟩
  · intro cmd w ex st t t'
    rfl
  · intro cmd env st p hp hst hw
    subst hst
    cases he : env.execResult <;> simp [confirmSwap, hp, hw, he]
  · intro cmd w bal ex st t t'
    rfl
  · intro cmd env st p b hp hst hc hw hb hlt
    subst hst
    cases he : env.execResult <;>
      simp [confirmCrossChainSwap, hp, hc, hw, hb, hlt, he]

/-- Witness for `C3_no_expiry_check`, instantiating each conjunct on the sample
pending swaps (whose embedded quotes expired at instant 0) at times 1000 and 2000. -/
theorem C3_no_expiry_check_witness :
    confirmSwap "confirm swap" ⟨true, .ok "SIG", 1000⟩ (some samplePendingSwap)
      = confirmSwap "confirm swap" ⟨true, .ok "SIG", 2000⟩ (some samplePendingSwap) ∧
    ((confirmSwap "confirm swap" sampleSwapEnv (some samplePendingSwap)).execAttempted = true ∧
      (confirmSwap "confirm swap" sampleSwapEnv
          (some samplePendingSwap)).quoteUsed = some samplePendingSwap.quote) ∧
    confirmCrossChainSwap "confirm cross-chain swap" ⟨true, .ok 10, .ok "HASH", 1000⟩
        (some samplePendingCC)
      = confirmCrossChainSwap "confirm cross-chain swap" ⟨true, .ok 10, .ok "HASH", 2000⟩
        (some samplePendingCC) ∧
    ((confirmCrossChainSwap "confirm cross-chain swap" sampleCCEnv
          (some samplePendingCC)).execAttempted = true ∧
      (confirmCrossChainSwap "confirm cross-chain swap" sampleCCEnv
          (some samplePendingCC)).quoteUsed = some samplePendingCC.quote) :=
  ⟨C3_no_expiry_check.1 "confirm swap" true (.ok "SIG") (some samplePendingSwap) 1000 2000,
    C3_no_expiry_check.2.1 "confirm swap" sampleSwapEnv (some samplePendingSwap)
      samplePendingSwap (by decide) rfl rfl,
    C3_no_expiry_check.2.2.1 "confirm cross-chain swap" true (.ok 10) (.ok "HASH")
      (some samplePendingCC) 1000 2000,
    C3_no_expiry_check.2.2.2 "confirm cross-chain swap" sampleCCEnv (some samplePendingCC)
      samplePendingCC 10 (by decide) rfl (by decide) rfl rfl (by decide)⟩

/-! ## C4 -/

/-- C4 counterexample: with nothing pending, the cancel phrase "cancel swap" is
classified as cancel (not invalid) and `confirmSwap` reports a successful
cancellation; and the full-command confirm message still drives
`confirmTransaction` to a successful execution — refuting the claim that
confirm/cancel phrases are Unrecognized/Invalid when no pending action exists
and that no confirm message can cause an execution. -/
theorem C4_cancel_without_pending_reports_cancelled :
    SwapTool.parseConfirmationResponse "cancel swap" = .cancel ∧
    (confirmSwap "cancel swap" sampleSwapEnv none).outcome = .cancelled ∧
    (confirmTransaction
        "confirm send 0.5 sol to 2Dk2je4iif7yttyGMLbjc8JrqUSMw2wqLPuHxVsJZ2Bg"
        sampleTransferEnv none).execAttempted = true ∧
    (confirmTransaction
        "confirm send 0.5 sol to 2Dk2je4iif7yttyGMLbjc8JrqUSMw2wqLPuHxVsJZ2Bg"
        sampleTransferEnv none).success = true := by
  refine ⟨by decide, by decide, by decide, by decide⟩

/-- C4 (amended): classification of confirm/cancel phrases ignores the pending
state.  With nothing pending, a simple confirm yields the nothing-pending
failure without invoking execution, a cancel phrase is still classified as
cancel and reports a successful cancellation, and the full-command confirm of
`confirmTransaction` proceeds to the execution tail exactly as it would with a
pending action. -/
theorem C4_no_pending_behaviour :
    (∀ cmd env, SwapTool.parseConfirmationResponse cmd = .confirm →
      (confirmSwap cmd env none).outcome = .noPending ∧
        (confirmSwap cmd env none).execAttempted = false) ∧
    (∀ cmd env, SwapTool.parseConfirmationResponse cmd = .cancel →
      (confirmSwap cmd env none).outcome = .cancelled) ∧
    (∀ cmd env, CrossChainTool.parseConfirmationResponse cmd = .confirm →
      (confirmCrossChainSwap cmd env none).outcome = .noPending ∧
        (confirmCrossChainSwap cmd env none).execAttempted = false) ∧
    (∀ cmd env, CrossChainTool.parseConfirmationResponse cmd = .cancel →
      (confirmCrossChainSwap cmd env none).outcome = .cancelled) ∧
    (∀ cmd env, TransferTool.parseConfirmationCommand cmd = some .simpleConfirm →
      (confirmTransaction cmd env none).outcome = .noPending ∧
        (confirmTransaction cmd env none).execAttempted = false) ∧
    (∀ cmd env, TransferTool.parseConfirmationCommand cmd = some .simpleCancel →
      (confirmTransaction cmd env none).outcome = .cancelled) ∧
    (∀ cmd env st a r, TransferTool.parseConfirmationCommand cmd = some (.full a r) →
      confirmTransaction cmd env st = runTransfer a r st env) := by
  refine ⟨?_, ?_, ?_, ?_, ?_, ?_, ?_⟩
  · intro cmd env h
    simp [confirmSwap, h]
  · intro cmd env h
    simp [confirmSwap, h]
  · intro cmd env h
    simp [confirmCrossChainSwap, h]
  · intro cmd env h
    simp [confirmCrossChainSwap, h]
  · intro cmd env h
    simp [confirmTransaction, h]
  · intro cmd env h
    simp [confirmTransaction, h]
  · intro cmd env st a r h
    simp [confirmTransaction, h]

/-- Witness for `C4_no_pending_behaviour`, instantiating each conjunct on
concrete messages with an empty store. -/
theorem C4_no_pending_behaviour_witness :
    ((confirmSwap "confirm swap" sampleSwapEnv none).outcome = .noPending ∧
      (confirmSwap "confirm swap" sampleSwapEnv none).execAttempted = false) ∧
    (confirmSwap "cancel swap" sampleSwapEnv none).outcome = .cancelled ∧
    ((confirmCrossChainSwap "confirm cross-chain swap" sampleCCEnv none).outcome
        = .noPending ∧
      (confirmCrossChainSwap "confirm cross-chain swap" sampleCCEnv
          none).execAttempted = false) ∧
    (confirmCrossChainSwap "cancel cross-chain swap" sampleCCEnv none).outcome
      = .cancelled ∧
    ((confirmTransaction "yes" sampleTransferEnv none).outcome = .noPending ∧
      (confirmTransaction "yes" sampleTransferEnv none).execAttempted = false) ∧
    (confirmTransaction "cancel transaction" sampleTransferEnv none).outcome
      = .cancelled ∧
    confirmTransaction
        "confirm send 0.5 sol to 2Dk2je4iif7yttyGMLbjc8JrqUSMw2wqLPuHxVsJZ2Bg"
        sampleTransferEnv none
      = runTransfer ⟨5, 1⟩ addrSample none sampleTransferEnv :=
  ⟨C4_no_pending_behaviour.1 "confirm swap" sampleSwapEnv (by decide),
    C4_no_pending_behaviour.2.1 "cancel swap" sampleSwapEnv (by decide),
    C4_no_pending_behaviour.2.2.1 "confirm cross-chain swap" sampleCCEnv (by decide),
    C4_no_pending_behaviour.2.2.2.1 "cancel cross-chain swap" sampleCCEnv (by decide),
    C4_no_pending_behaviour.2.2.2.2.1 "yes" sampleTransferEnv (by decide),
    C4_no_pending_behaviour.2.2.2.2.2.1 "cancel transaction" sampleTransferEnv (by decide),
    C4_no_pending_behaviour.2.2.2.2.2.2
      "confirm send 0.5 sol to 2Dk2je4iif7yttyGMLbjc8JrqUSMw2wqLPuHxVsJZ2Bg"
      sampleTransferEnv none ⟨5, 1⟩ addrSample (by decide)⟩

/-! ## C7 -/

/-- C7 counterexample: the bare direction word "yes" carries no subject token at
all, yet `parseConfirmationCommand` classifies it as a confirmation and
`confirmTransaction` consumes and executes the pending transfer on it —
refuting the claim that a bare direction word without a matching subject token
is never a confirmation. -/
theorem C7_bare_yes_confirms :
    TransferTool.parseConfirmationCommand "yes" = some .simpleConfirm ∧
    strIncludes (normJS "yes") "transaction" = false ∧
    strIncludes (normJS "yes") "swap" = false ∧
    strIncludes (normJS "yes") "send" = false ∧
    (confirmTransaction "yes" sampleTransferEnv
        (some samplePendingTransfer)).execAttempted = true ∧
    (confirmTransaction "yes" sampleTransferEnv
        (some samplePendingTransfer)).success = true := by
  refine ⟨by decide, by decide, by decide, by decide, by decide, by decide⟩

/-- C7 (amended): the swap and cross-chain classifiers do require a direction
token together with a subject token (every input they classify as confirm or
cancel contains one of each as a substring); but the transaction classifier
additionally accepts the bare direction words "yes", "y", "confirm", "no" and
"n" with no subject token present. -/
theorem C7_direction_and_subject :
    (∀ s, SwapTool.parseConfirmationResponse s = .confirm →
      strIncludes (normJS s) "swap" = true ∧
        (strIncludes (normJS s) "confirm" = true ∨ strIncludes (normJS s) "yes" = true)) ∧
    (∀ s, SwapTool.parseConfirmationResponse s = .cancel →
      strIncludes (normJS s) "swap" = true ∧
        (strIncludes (normJS s) "cancel" = true ∨ strIncludes (normJS s) "no" = true)) ∧
    (∀ s, CrossChainTool.parseConfirmationResponse s = .confirm →
      (strIncludes (normJS s) "confirm" = true ∨ strIncludes (normJS s) "yes" = true) ∧
        (strIncludes (normJS s) "swap" = true ∨ strIncludes (normJS s) "cross" = true ∨
          strIncludes (normJS s) "crosschain" = true)) ∧
    (∀ s, CrossChainTool.parseConfirmationResponse s = .cancel →
      (strIncludes (normJS s) "cancel" = true ∨ strIncludes (normJS s) "no" = true) ∧
        (strIncludes (normJS s) "swap" = true ∨ strIncludes (normJS s) "cross" = true ∨
          strIncludes (normJS s) "crosschain" = true)) ∧
    (TransferTool.parseConfirmationCommand "yes" = some .simpleConfirm ∧
      TransferTool.parseConfirmationCommand "y" = some .simpleConfirm ∧
      TransferTool.parseConfirmationCommand "confirm" = some .simpleConfirm ∧
      TransferTool.parseConfirmationCommand "no" = some .simpleCancel ∧
      TransferTool.parseConfirmationCommand "n" = some .simpleCancel) := by
  refine ⟨?_, ?_, ?_, ?_, by decide⟩
  · intro s h
    unfold SwapTool.parseConfirmationResponse at h
    by_cases hc : (normJS s = "confirm swap" ∨ normJS s = "yes swap" ∨
        (strIncludes (normJS s) "confirm" ∧ strIncludes (normJS s) "swap"))
    · rcases hc with h1 | h1 | ⟨h1, h2⟩
      · rw [h1]
        exact ⟨by decide, Or.inl (by decide)⟩
      · rw [h1]
        exact ⟨by decide, Or.inr (by decide)⟩
      · exact ⟨h2, Or.inl h1⟩
    · rw [if_neg hc] at h
      by_cases hc2 : (normJS s = "cancel swap" ∨ normJS s = "no swap" ∨
          (strIncludes (normJS s) "cancel" ∧ strIncludes (normJS s) "swap"))
      · rw [if_pos hc2] at h
        exact ConfirmResponse.noConfusion h
      · rw [if_neg hc2] at h
        exact ConfirmResponse.noConfusion h
  · intro s h
    unfold SwapTool.parseConfirmationResponse at h
    by_cases hc : (normJS s = "confirm swap" ∨ normJS s = "yes swap" ∨
        (strIncludes (normJS s) "confirm" ∧ strIncludes (normJS s) "swap"))
    · rw [if_pos hc] at h
      exact ConfirmResponse.noConfusion h
    · rw [if_neg hc] at h
      by_cases hc2 : (normJS s = "cancel swap" ∨ normJS s = "no swap" ∨
          (strIncludes (normJS s) "cancel" ∧ strIncludes (normJS s) "swap"))
      · rcases hc2 with h1 | h1 | ⟨h1, h2⟩
        · rw [h1]
          exact ⟨by decide, Or.inl (by decide)⟩
        · rw [h1]
          exact ⟨by decide, Or.inr (by decide)⟩
        · exact ⟨h2, Or.inl h1⟩
      · rw [if_neg hc2] at h
        exact ConfirmResponse.noConfusion h
  · intro s h
    unfold CrossChainTool.parseConfirmationResponse at h
    by_cases hc : (normJS s = "confirm cross-chain swap" ∨
        normJS s = "confirm crosschain swap" ∨ normJS s = "confirm cross chain swap" ∨
        normJS s = "yes cross-chain swap" ∨ normJS s = "yes crosschain swap" ∨
        normJS s = "confirm swap" ∨
        (strIncludes (normJS s) "confirm" ∧ strIncludes (normJS s) "cross" ∧
          strIncludes (normJS s) "chain") ∨
        (strIncludes (normJS s) "confirm" ∧ strIncludes (normJS s) "crosschain") ∨
        (strIncludes (normJS s) "yes" ∧ strIncludes (normJS s) "cross" ∧
          strIncludes (normJS s) "chain"))
    · rcases hc with h1 | h1 | h1 | h1 | h1 | h1 | ⟨h1, h2, h3⟩ | ⟨h1, h2⟩ | ⟨h1, h2, h3⟩
      · rw [h1]
        exact ⟨Or.inl (by decide), Or.inl (by decide)⟩
      · rw [h1]
        exact ⟨Or.inl (by decide), Or.inl (by decide)⟩
      · rw [h1]
        exact ⟨Or.inl (by decide), Or.inl (by decide)⟩
      · rw [h1]
        exact ⟨Or.inr (by decide), Or.inl (by decide)⟩
      · rw [h1]
        exact ⟨Or.inr (by decide), Or.inl (by decide)⟩
      · rw [h1]
        exact ⟨Or.inl (by decide), Or.inl (by decide)⟩
      · exact ⟨Or.inl h1, Or.inr (Or.inl h2)⟩
      · exact ⟨Or.inl h1, Or.inr (Or.inr h2)⟩
      · exact ⟨Or.inr h1, Or.inr (Or.inl h2)⟩
    · rw [if_neg hc] at h
      by_cases hc2 : (normJS s = "cancel cross-chain swap" ∨
          normJS s = "cancel crosschain swap" ∨ normJS s = "cancel cross chain swap" ∨
          normJS s = "no cross-chain swap" ∨ normJS s = "no crosschain swap" ∨
          normJS s = "cancel swap" ∨
          (strIncludes (normJS s) "cancel" ∧ strIncludes (normJS s) "cross" ∧
            strIncludes (normJS s) "chain") ∨
          (strIncludes (normJS s) "cancel" ∧ strIncludes (normJS s) "crosschain") ∨
          (strIncludes (normJS s) "no" ∧ strIncludes (normJS s) "cross" ∧
            strIncludes (normJS s) "chain"))
      · rw [if_pos hc2] at h
        exact ConfirmResponse.noConfusion h
      · rw [if_neg hc2] at h
        exact ConfirmResponse.noConfusion h
  · intro s h
    unfold CrossChainTool.parseConfirmationResponse at h
    by_cases hc : (normJS s = "confirm cross-chain swap" ∨
        normJS s = "confirm crosschain swap" ∨ normJS s = "confirm cross chain swap" ∨
        normJS s = "yes cross-chain swap" ∨ normJS s = "yes crosschain swap" ∨
        normJS s = "confirm swap" ∨
        (strIncludes (normJS s) "confirm" ∧ strIncludes (normJS s) "cross" ∧
          strIncludes (normJS s) "chain") ∨
        (strIncludes (normJS s) "confirm" ∧ strIncludes (normJS s) "crosschain") ∨
        (strIncludes (normJS s) "yes" ∧ strIncludes (normJS s) "cross" ∧
          strIncludes (normJS s) "chain"))
    · rw [if_pos hc] at h
      exact ConfirmResponse.noConfusion h
    · rw [if_neg hc] at h
      by_cases hc2 : (normJS s = "cancel cross-chain swap" ∨
          normJS s = "cancel crosschain swap" ∨ normJS s = "cancel cross chain swap" ∨
          normJS s = "no cross-chain swap" ∨ normJS s = "no crosschain swap" ∨
          normJS s = "cancel swap" ∨
          (strIncludes (normJS s) "cancel" ∧ strIncludes (normJS s) "cross" ∧
            strIncludes (normJS s) "chain") ∨
          (strIncludes (normJS s) "cancel" ∧ strIncludes (normJS s) "crosschain") ∨
          (strIncludes (normJS s) "no" ∧ strIncludes (normJS s) "cross" ∧
            strIncludes (normJS s) "chain"))
      · rcases hc2 with h1 | h1 | h1 | h1 | h1 | h1 | ⟨h1, h2, h3⟩ | ⟨h1, h2⟩ | ⟨h1, h2, h3⟩
        · rw [h1]
          exact ⟨Or.inl (by decide), Or.inl (by decide)⟩
        · rw [h1]
          exact ⟨Or.inl (by decide), Or.inl (by decide)⟩
        · rw [h1]
          exact ⟨Or.inl (by decide), Or.inl (by decide)⟩
        · rw [h1]
          exact ⟨Or.inr (by decide), Or.inl (by decide)⟩
        · rw [h1]
          exact ⟨Or.inr (by decide), Or.inl (by decide)⟩
        · rw [h1]
          exact ⟨Or.inl (by decide), Or.inl (by decide)⟩
        · exact ⟨Or.inl h1, Or.inr (Or.inl h2)⟩
        · exact ⟨Or.inl h1, Or.inr (Or.inr h2)⟩
        · exact ⟨Or.inr h1, Or.inr (Or.inl h2)⟩
      · rw [if_neg hc2] at h
        exact ConfirmResponse.noConfusion h

/-- Witness for `C7_direction_and_subject`, instantiating the four quantified
conjuncts on concrete phrases and restating the bare-word facts. -/
theorem C7_direction_and_subject_witness :
    (strIncludes (normJS "confirm swap") "swap" = true ∧
      (strIncludes (normJS "confirm swap") "confirm" = true ∨
        strIncludes (normJS "confirm swap") "yes" = true)) ∧
    (strIncludes (normJS "cancel swap") "swap" = true ∧
      (strIncludes (normJS "cancel swap") "cancel" = true ∨
        strIncludes (normJS "cancel swap") "no" = true)) ∧
    ((strIncludes (normJS "yes cross chain") "confirm" = true ∨
        strIncludes (normJS "yes cross chain") "yes" = true) ∧
      (strIncludes (normJS "yes cross chain") "swap" = true ∨
        strIncludes (normJS "yes cross chain") "cross" = true ∨
        strIncludes (normJS "yes cross chain") "crosschain" = true)) ∧
    ((strIncludes (normJS "no cross chain") "cancel" = true ∨
        strIncludes (normJS "no cross chain") "no" = true) ∧
      (strIncludes (normJS "no cross chain") "swap" = true ∨
        strIncludes (normJS "no cross chain") "cross" = true ∨
        strIncludes (normJS "no cross chain") "crosschain" = true)) ∧
    (TransferTool.parseConfirmationCommand "yes" = some .simpleConfirm ∧
      TransferTool.parseConfirmationCommand "y" = some .simpleConfirm ∧
      TransferTool.parseConfirmationCommand "confirm" = some .simpleConfirm ∧
      TransferTool.parseConfirmationCommand "no" = some .simpleCancel ∧
      TransferTool.parseConfirmationCommand "n" = some .simpleCancel) :=
  ⟨C7_direction_and_subject.1 "confirm swap" (by decide),
    C7_direction_and_subject.2.1 "cancel swap" (by decide),
    C7_direction_and_subject.2.2.1 "yes cross chain" (by decide),
    C7_direction_and_subject.2.2.2.1 "no cross chain" (by decide),
    C7_direction_and_subject.2.2.2.2⟩

/-! ## C5 -/

/-- A transfer prepare environment: every address valid, wallet configured,
balance 10 SOL. -/
def sampleTransferPrepEnv : TransferPrepareEnv := ⟨fun _ => true, true, "SenderPubKey", .ok 10⟩

/-- A swap prepare environment: wallet configured, balance 10 SOL, every token
resolvable, quoting succeeds. -/
def sampleSwapPrepEnv : SwapPrepareEnv :=
  ⟨true, 10, fun _ => some ⟨"Mint", "SYM", 6⟩, .ok sampleSwapQuote⟩

/-- A cross-chain prepare environment: wallet configured, balance 10 SOL, every
token contract resolvable, one Mayan route quoted. -/
def sampleCCPrepEnv : CCPrepareEnv := ⟨true, some 10, fun _ _ => some "Contract", .ok [sampleMayanQuote]⟩

/-- C5: a prepare call whose amount exceeds the kind's ceiling (1 for the native
transfer, 10 for the same-chain swap, 100 for the cross-chain swap) is rejected
— `success = false`, the pending slot untouched — and the quote-provider
boundary is never invoked. -/
theorem C5_ceiling_rejects_before_quote :
    (∀ amount recipient env st, (1 : Dec) < amount →
      (executeTransaction amount recipient env st).success = false ∧
        (executeTransaction amount recipient env st).quoteCalled = false ∧
        (executeTransaction amount recipient env st).pendingAfter = st) ∧
    (∀ p env st, (10 : Dec) < p.amount →
      (swapTokens (some p) env st).success = false ∧
        (swapTokens (some p) env st).outcome = .amountTooLarge ∧
        (swapTokens (some p) env st).quoteCalled = false ∧
        (swapTokens (some p) env st).pendingAfter = st) ∧
    (∀ p dest env st, (100 : Dec) < p.amount →
      (prepareCrossChainSwap (some p) dest env st).success = false ∧
        (prepareCrossChainSwap (some p) dest env st).quoteCalled = false ∧
        (prepareCrossChainSwap (some p) dest env st).pendingAfter = st) := by
  refine ⟨?_, ?_, ?_⟩
  · intro amount recipient env st h
    cases hv : env.validAddress recipient <;> cases hw : env.walletConfigured <;>
      simp [executeTransaction, hv, hw, h]
  · intro p env st h
    simp [swapTokens, h]
  · intro p dest env st h
    by_cases hch : (lowerStr p.fromChain ∈ SUPPORTED_CHAINS ∧
        lowerStr p.toChain ∈ SUPPORTED_CHAINS)
    · by_cases hd : dest = ""
      · simp [prepareCrossChainSwap, hch, hd]
      · simp [prepareCrossChainSwap, hch, hd, h]
    · simp [prepareCrossChainSwap, hch]

/-- Witness for `C5_ceiling_rejects_before_quote`: over-ceiling amounts 2, 11
and 101 on environments where everything else would succeed. -/
theorem C5_ceiling_rejects_before_quote_witness :
    ((executeTransaction 2 addrSample sampleTransferPrepEnv none).success = false ∧
      (executeTransaction 2 addrSample sampleTransferPrepEnv none).quoteCalled = false ∧
      (executeTransaction 2 addrSample sampleTransferPrepEnv none).pendingAfter = none) ∧
    ((swapTokens (some ⟨.buy, 11, "", "bonk"⟩) sampleSwapPrepEnv none).success = false ∧
      (swapTokens (some ⟨.buy, 11, "", "bonk"⟩) sampleSwapPrepEnv none).outcome
          = .amountTooLarge ∧
      (swapTokens (some ⟨.buy, 11, "", "bonk"⟩) sampleSwapPrepEnv none).quoteCalled = false ∧
      (swapTokens (some ⟨.buy, 11, "", "bonk"⟩) sampleSwapPrepEnv none).pendingAfter = none) ∧
    ((prepareCrossChainSwap (some ⟨101, "sol", "solana", "usdc", "ethereum"⟩) "0xdest"
          sampleCCPrepEnv none).success = false ∧
      (prepareCrossChainSwap (some ⟨101, "sol", "solana", "usdc", "ethereum"⟩) "0xdest"
          sampleCCPrepEnv none).quoteCalled = false ∧
      (prepareCrossChainSwap (some ⟨101, "sol", "solana", "usdc", "ethereum"⟩) "0xdest"
          sampleCCPrepEnv none).pendingAfter = none) :=
  ⟨C5_ceiling_rejects_before_quote.1 2 addrSample sampleTransferPrepEnv none (by decide),
    C5_ceiling_rejects_before_quote.2.1 ⟨.buy, 11, "", "bonk"⟩ sampleSwapPrepEnv none
      (by decide),
    C5_ceiling_rejects_before_quote.2.2 ⟨101, "sol", "solana", "usdc", "ethereum"⟩ "0xdest"
      sampleCCPrepEnv none (by decide)⟩

/-! ## C6 -/

/-- C6 counterexample: `swapTokens` performs no balance check at all — with a
wallet balance of 0 SOL, strictly below the 1 SOL swap amount (let alone amount
plus any fee), the prepare succeeds and the pending swap is created, refuting
the claim that every prepare kind rejects with InsufficientBalance when
`balance < amount + fee`. -/
theorem C6_swap_prepare_ignores_balance :
    (0 : Dec) < (1 : Dec) + solTransferFee ∧
    (swapTokens (some ⟨.buy, 1, "", "bonk"⟩)
        ⟨true, 0, fun _ => some ⟨"Mint", "SYM", 6⟩, .ok sampleSwapQuote⟩ none).success = true ∧
    (swapTokens (some ⟨.buy, 1, "", "bonk"⟩)
        ⟨true, 0, fun _ => some ⟨"Mint", "SYM", 6⟩, .ok sampleSwapQuote⟩
        none).pendingAfter.isSome = true := by
  refine ⟨by decide, by decide, by decide⟩

/-- C6 (amended): the transfer prepare enforces `balance ≥ amount + 0.000005`
and rejects with an InsufficientBalance result carrying the held and needed
amounts, leaving the pending slot untouched; the cross-chain prepare from
solana enforces `balance ≥ amount + 0.06` when bridging SOL and a flat 0.06
fee floor for other tokens; the same-chain swap prepare performs no balance
check — its result does not depend on the wallet balance at all. -/
theorem C6_balance_checks :
    (∀ amount recipient env st b, env.validAddress recipient = true →
      env.walletConfigured = true → ¬((1 : Dec) < amount) → env.balance = .ok b →
      b < amount + solTransferFee →
      executeTransaction amount recipient env st
        = ⟨false, .insufficientBalance b (amount + solTransferFee), st, false⟩) ∧
    (∀ parsed w bal bal' res q st,
      swapTokens parsed ⟨w, bal, res, q⟩ st = swapTokens parsed ⟨w, bal', res, q⟩ st) ∧
    (∀ p dest env st b,
      (lowerStr p.fromChain ∈ SUPPORTED_CHAINS ∧ lowerStr p.toChain ∈ SUPPORTED_CHAINS) →
      ¬(dest = "") → ¬((100 : Dec) < p.amount) → lowerStr p.fromChain = "solana" →
      env.walletConfigured = true → env.balance = some b →
      lowerStr p.fromToken = "sol" → b < p.amount + ccSwapFee →
      prepareCrossChainSwap (some p) dest env st
        = ⟨false, .insufficientBalance b (p.amount + ccSwapFee), st, false⟩) ∧
    (∀ p dest env st b,
      (lowerStr p.fromChain ∈ SUPPORTED_CHAINS ∧ lowerStr p.toChain ∈ SUPPORTED_CHAINS) →
      ¬(dest = "") → ¬((100 : Dec) < p.amount) → lowerStr p.fromChain = "solana" →
      env.walletConfigured = true → env.balance = some b →
      ¬(lowerStr p.fromToken = "sol") → b < ccSwapFee →
      prepareCrossChainSwap (some p) dest env st
        = ⟨false, .insufficientFeeBalance b ccSwapFee, st, false⟩) := by
  refine ⟨?_, ?_, ?_, ?_⟩
  · intro amount recipient env st b hv hw hno hb hlt
    simp [executeTransaction, hv, hw, hno, hb, hlt]
  · intro parsed w bal bal' res q st
    cases parsed with
    | none => rfl
    | some p => rfl
  · intro p dest env st b hch hd hno hsol hw hb htok hlt
    simp [prepareCrossChainSwap, hch, hd, hno, hsol, hw, hb, htok, hlt]
    decide
  · intro p dest env st b hch hd hno hsol hw hb htok hlt
    simp [prepareCrossChainSwap, hch, hd, hno, hsol, hw, hb, htok, hlt]
    decide

/-- Witness for `C6_balance_checks`: a transfer with balance exactly the amount
(short of the fee), the balance-independence of the swap prepare, and the two
cross-chain shortfall shapes. -/
theorem C6_balance_checks_witness :
    executeTransaction 1 addrSample ⟨fun _ => true, true, "SenderPubKey", .ok 1⟩ none
      = ⟨false, .insufficientBalance 1 ((1 : Dec) + solTransferFee), none, false⟩ ∧
    swapTokens (some ⟨.buy, 1, "", "bonk"⟩)
        ⟨true, 0, sampleSwapPrepEnv.resolve, .ok sampleSwapQuote⟩ none
      = swapTokens (some ⟨.buy, 1, "", "bonk"⟩)
        ⟨true, 100, sampleSwapPrepEnv.resolve, .ok sampleSwapQuote⟩ none ∧
    prepareCrossChainSwap (some ⟨1, "sol", "solana", "usdc", "ethereum"⟩) "0xdest"
        ⟨true, some 1, sampleCCPrepEnv.resolveContract, .ok [sampleMayanQuote]⟩ none
      = ⟨false, .insufficientBalance 1 ((1 : Dec) + ccSwapFee), none, false⟩ ∧
    prepareCrossChainSwap (some ⟨1, "usdc", "solana", "usdc", "ethereum"⟩) "0xdest"
        ⟨true, some ⟨5, 2⟩, sampleCCPrepEnv.resolveContract, .ok [sampleMayanQuote]⟩ none
      = ⟨false, .insufficientFeeBalance ⟨5, 2⟩ ccSwapFee, none, false⟩ :=
  ⟨C6_balance_checks.1 1 addrSample ⟨fun _ => true, true, "SenderPubKey", .ok 1⟩ none 1
      rfl rfl (by decide) rfl (by decide),
    C6_balance_checks.2.1 (some ⟨.buy, 1, "", "bonk"⟩) true 0 100
      sampleSwapPrepEnv.resolve (.ok sampleSwapQuote) none,
    C6_balance_checks.2.2.1 ⟨1, "sol", "solana", "usdc", "ethereum"⟩ "0xdest"
      ⟨true, some 1, sampleCCPrepEnv.resolveContract, .ok [sampleMayanQuote]⟩ none 1
      (by decide) (by decide) (by decide) (by decide) rfl rfl (by decide) (by decide),
    C6_balance_checks.2.2.2 ⟨1, "usdc", "solana", "usdc", "ethereum"⟩ "0xdest"
      ⟨true, some ⟨5, 2⟩, sampleCCPrepEnv.resolveContract, .ok [sampleMayanQuote]⟩ none
      ⟨5, 2⟩ (by decide) (by decide) (by decide) (by decide) rfl rfl (by decide)
      (by decide)⟩

/-! ## C2 -/

/-- The store after a successful transfer prepare on an empty store. -/
def c2State1 : GlobalState :=
  (runTransferPrepare ⟨5, 1⟩ addrSample sampleTransferPrepEnv ⟨none, none, none⟩).2

/-- The store after a successful swap prepare following the transfer prepare. -/
def c2State2 : GlobalState :=
  (runSwapPrepare (some ⟨.buy, 1, "", "bonk"⟩) sampleSwapPrepEnv c2State1).2

/-- C2 counterexample: preparing a transfer and then a swap leaves TWO pending
actions in the store at once — the transfer slot and the swap slot are
independent module-level variables, so the second prepare does not overwrite
the first — refuting the claim that at most one pending action exists across
all kinds. -/
theorem C2_two_kinds_coexist :
    pendingCount c2State2 = 2 ∧
    c2State2.pendingTransaction.isSome = true ∧
    c2State2.pendingSwap.isSome = true := by
  refine ⟨by decide, by decide, by decide⟩

/-- Helper: when the quote stage of the cross-chain prepare succeeds, the
pending action it stores is built from the command and the quote alone — it does
not depend on the slot's previous content. -/
theorem ccQuoteStage_overwrites (p : CCParsed) (dest : String) (env : CCPrepareEnv)
    (st st' : Option PendingCrossChainSwap) :
    (ccQuoteStage p dest env st).success = true →
    (ccQuoteStage p dest env st).pendingAfter = (ccQuoteStage p dest env st').pendingAfter := by
  intro h
  cases hf : env.resolveContract p.fromToken p.fromChain <;>
    cases ht : env.resolveContract p.toToken p.toChain <;>
      simp [ccQuoteStage, hf, ht] at h ⊢
  cases hq : env.quotes with
  | error e => simp [hq] at h
  | ok l =>
    cases l with
    | nil => simp [hq] at h
    | cons q rest => simp [hq]

/-- C2 (amended): each intent kind has its own single module-level slot — a
successful prepare stores a pending action that does not depend on the slot's
previous content (the previous pending action of that kind is overwritten and
discarded), and a prepare of one kind leaves the slots of the other two kinds
untouched.  At most one pending action exists per kind, but pending actions of
different kinds coexist. -/
theorem C2_per_kind_single_slot :
    (∀ parsed env st st', (swapTokens parsed env st).success = true →
      (swapTokens parsed env st).pendingAfter = (swapTokens parsed env st').pendingAfter) ∧
    (∀ amount recipient env st st', (executeTransaction amount recipient env st).success = true →
      (executeTransaction amount recipient env st).pendingAfter
        = (executeTransaction amount recipient env st').pendingAfter) ∧
    (∀ parsed dest env st st', (prepareCrossChainSwap parsed dest env st).success = true →
      (prepareCrossChainSwap parsed dest env st).pendingAfter
        = (prepareCrossChainSwap parsed dest env st').pendingAfter) ∧
    (∀ parsed env g, (runSwapPrepare parsed env g).2.pendingTransaction = g.pendingTransaction ∧
      (runSwapPrepare parsed env g).2.pendingCrossChainSwap = g.pendingCrossChainSwap) ∧
    (∀ amount recipient env g,
      (runTransferPrepare amount recipient env g).2.pendingSwap = g.pendingSwap ∧
      (runTransferPrepare amount recipient env g).2.pendingCrossChainSwap
        = g.pendingCrossChainSwap) ∧
    (∀ parsed dest env g,
      (runCCPrepare parsed dest env g).2.pendingTransaction = g.pendingTransaction ∧
      (runCCPrepare parsed dest env g).2.pendingSwap = g.pendingSwap) := by
  refine ⟨?_, ?_, ?_, ?_, ?_, ?_⟩
  · intro parsed env st st' h
    cases parsed with
    | none => simp [swapTokens] at h
    | some p =>
      by_cases h10 : (10 : Dec) < p.amount
      · simp [swapTokens, h10] at h
      · cases hw : env.walletConfigured
        · simp [swapTokens, h10, hw] at h
        · cases hkind : p.kind <;>
            cases hi : env.resolve "sol" <;>
            cases hf : env.resolve p.fromToken <;>
            cases ht : env.resolve p.toToken <;>
            cases hq : env.quote <;>
            simp [swapTokens, h10, hw, hkind, hi, hf, ht, hq] at h ⊢
  · intro amount recipient env st st' h
    cases hv : env.validAddress recipient
    · simp [executeTransaction, hv] at h
    · cases hw : env.walletConfigured
      · simp [executeTransaction, hv, hw] at h
      · by_cases h1 : (1 : Dec) < amount
        · simp [executeTransaction, hv, hw, h1] at h
        · cases hb : env.balance with
          | error e => simp [executeTransaction, hv, hw, h1, hb] at h
          | ok b =>
            by_cases hlt : b < amount + solTransferFee
            · simp [executeTransaction, hv, hw, h1, hb, hlt] at h
            · simp [executeTransaction, hv, hw, h1, hb, hlt]
  · intro parsed dest env st st' h
    cases parsed with
    | none => simp [prepareCrossChainSwap] at h
    | some p =>
      by_cases hch : (lowerStr p.fromChain ∈ SUPPORTED_CHAINS ∧
          lowerStr p.toChain ∈ SUPPORTED_CHAINS)
      · by_cases hd : dest = ""
        · simp [prepareCrossChainSwap, hch, hd] at h
        · by_cases h100 : (100 : Dec) < p.amount
          · simp [prepareCrossChainSwap, hch, hd, h100] at h
          · by_cases hsol : lowerStr p.fromChain = "solana"
            · have hmem : "solana" ∈ SUPPORTED_CHAINS := by decide
              cases hw : env.walletConfigured
              · simp [prepareCrossChainSwap, hch, hd, h100, hsol, hw, hmem] at h
              · cases hb : env.balance with
                | none =>
                  simp [prepareCrossChainSwap, hch, hd, h100, hsol, hw, hb, hmem] at h
                | some b =>
                  by_cases htok : lowerStr p.fromToken = "sol"
                  · by_cases hlt : b < p.amount + ccSwapFee
                    · simp [prepareCrossChainSwap, hch, hd, h100, hsol, hw, hb, htok,
                        hlt, hmem] at h
                    · simp only [prepareCrossChainSwap, hch, hd, h100, hsol, hw, hb, htok,
                        hlt] at h ⊢
                      simp at h ⊢
                      exact ccQuoteStage_overwrites p dest env st st' h
                  · by_cases hlt : b < ccSwapFee
                    · simp [prepareCrossChainSwap, hch, hd, h100, hsol, hw, hb, htok,
                        hlt, hmem] at h
                    · simp only [prepareCrossChainSwap, hch, hd, h100, hsol, hw, hb, htok,
                        hlt] at h ⊢
                      simp at h ⊢
                      exact ccQuoteStage_overwrites p dest env st st' h
            · simp only [prepareCrossChainSwap, hch, hd, h100, hsol] at h ⊢
              simp at h ⊢
              exact ccQuoteStage_overwrites p dest env st st' h
      · simp [prepareCrossChainSwap, hch] at h
  · intro parsed env g
    exact ⟨rfl, rfl⟩
  · intro amount recipient env g
    exact ⟨rfl, rfl⟩
  · intro parsed dest env g
    exact ⟨rfl, rfl⟩

/-- Witness for `C2_per_kind_single_slot`: overwriting runs of the three prepare
tools on distinct previous slot contents, and the isolation of the other kinds'
slots on the `c2State1` store. -/
theorem C2_per_kind_single_slot_witness :
    (swapTokens (some ⟨.buy, 1, "", "bonk"⟩) sampleSwapPrepEnv none).pendingAfter
      = (swapTokens (some ⟨.buy, 1, "", "bonk"⟩) sampleSwapPrepEnv
          (some samplePendingSwap)).pendingAfter ∧
    (executeTransaction ⟨5, 1⟩ addrSample sampleTransferPrepEnv none).pendingAfter
      = (executeTransaction ⟨5, 1⟩ addrSample sampleTransferPrepEnv
          (some samplePendingTransfer)).pendingAfter ∧
    (prepareCrossChainSwap (some ⟨1, "sol", "solana", "usdc", "ethereum"⟩) "0xdest"
        sampleCCPrepEnv none).pendingAfter
      = (prepareCrossChainSwap (some ⟨1, "sol", "solana", "usdc", "ethereum"⟩) "0xdest"
          sampleCCPrepEnv (some samplePendingCC)).pendingAfter ∧
    ((runSwapPrepare (some ⟨.buy, 1, "", "bonk"⟩) sampleSwapPrepEnv
          c2State1).2.pendingTransaction = c2State1.pendingTransaction ∧
      (runSwapPrepare (some ⟨.buy, 1, "", "bonk"⟩) sampleSwapPrepEnv
          c2State1).2.pendingCrossChainSwap = c2State1.pendingCrossChainSwap) ∧
    ((runTransferPrepare ⟨5, 1⟩ addrSample sampleTransferPrepEnv
          c2State1).2.pendingSwap = c2State1.pendingSwap ∧
      (runTransferPrepare ⟨5, 1⟩ addrSample sampleTransferPrepEnv
          c2State1).2.pendingCrossChainSwap = c2State1.pendingCrossChainSwap) ∧
    ((runCCPrepare (some ⟨1, "sol", "solana", "usdc", "ethereum"⟩) "0xdest"
          sampleCCPrepEnv c2State1).2.pendingTransaction = c2State1.pendingTransaction ∧
      (runCCPrepare (some ⟨1, "sol", "solana", "usdc", "ethereum"⟩) "0xdest"
          sampleCCPrepEnv c2State1).2.pendingSwap = c2State1.pendingSwap) :=
  ⟨C2_per_kind_single_slot.1 (some ⟨.buy, 1, "", "bonk"⟩) sampleSwapPrepEnv none
      (some samplePendingSwap) (by decide),
    C2_per_kind_single_slot.2.1 ⟨5, 1⟩ addrSample sampleTransferPrepEnv none
      (some samplePendingTransfer) (by decide),
    C2_per_kind_single_slot.2.2.1 (some ⟨1, "sol", "solana", "usdc", "ethereum"⟩) "0xdest"
      sampleCCPrepEnv none (some samplePendingCC) (by decide),
    C2_per_kind_single_slot.2.2.2.1 (some ⟨.buy, 1, "", "bonk"⟩) sampleSwapPrepEnv c2State1,
    C2_per_kind_single_slot.2.2.2.2.1 ⟨5, 1⟩ addrSample sampleTransferPrepEnv c2State1,
    C2_per_kind_single_slot.2.2.2.2.2 (some ⟨1, "sol", "solana", "usdc", "ethereum"⟩)
      "0xdest" sampleCCPrepEnv c2State1⟩

/-! ## C8 -/

/-- A network that fails every request. -/
def failNet : ℕ → Except String (List JupToken) := fun _ => .error "timeout"

/-- C8 counterexample: starting from an empty cache, six consecutive calls of
`getJupiterTokens` fail all of their network attempts, and the seventh call
STILL makes 3 network attempts — no circuit breaker ever opens and no call
short-circuits — refuting the claimed open-after-5-failures breaker. -/
theorem C8_no_circuit_breaker :
    (runJupCalls ⟨[], 0⟩
        [(0, failNet), (1, failNet), (2, failNet), (3, failNet), (4, failNet),
          (5, failNet), (6, failNet)]).2
      = [3, 3, 3, 3, 3, 3, 3] := by
  decide

/-- C8 (amended): the token-list adapter has no circuit breaker.  A call served
from a non-empty cache younger than 5 minutes makes no network attempt; every
other call makes exactly 3 network attempts (the configured 2 retries beyond
the first, with a fixed delay) regardless of how many consecutive failures
preceded it, returning the stale (possibly empty) cache on exhaustion; and a
call makes zero network attempts ONLY in the fresh-cache case — never because
of prior failures. -/
theorem C8_retry_and_cache :
    (∀ st now net, st.cachedTokens ≠ [] → now - st.cacheTimestamp < CACHE_DURATION →
      getJupiterTokens st now net = ⟨st.cachedTokens, 0, st⟩) ∧
    (∀ st now net, (∀ k ts, net k ≠ .ok ts) →
      ¬(st.cachedTokens ≠ [] ∧ now - st.cacheTimestamp < CACHE_DURATION) →
      getJupiterTokens st now net = ⟨st.cachedTokens, 3, st⟩) ∧
    (∀ st now net, (getJupiterTokens st now net).networkAttempts = 0 →
      st.cachedTokens ≠ [] ∧ now - st.cacheTimestamp < CACHE_DURATION) := by
  refine ⟨?_, ?_, ?_⟩
  · intro st now net h1 h2
    unfold getJupiterTokens
    rw [if_pos ⟨h1, h2⟩]
  · intro st now net hfail hcache
    unfold getJupiterTokens
    rw [if_neg hcache]
    unfold jupFetch
    cases h0 : net 0 with
    | ok ts => exact absurd h0 (hfail 0 ts)
    | error e0 =>
      cases h1 : net 1 with
      | ok ts => exact absurd h1 (hfail 1 ts)
      | error e1 =>
        cases h2 : net 2 with
        | ok ts => exact absurd h2 (hfail 2 ts)
        | error e2 => rfl
  · intro st now net h
    by_cases hc : (st.cachedTokens ≠ [] ∧ now - st.cacheTimestamp < CACHE_DURATION)
    · exact hc
    · exfalso
      unfold getJupiterTokens at h
      rw [if_neg hc] at h
      unfold jupFetch at h
      cases h0 : net 0 <;> rw [h0] at h
      · cases h1 : net 1 <;> rw [h1] at h
        · cases h2 : net 2 <;> rw [h2] at h
          · exact Nat.noConfusion h
          · exact Nat.noConfusion h
        · exact Nat.noConfusion h
      · exact Nat.noConfusion h

/-- Witness for `C8_retry_and_cache`: a fresh-cache call, an empty-cache call
against the all-failing network, and the attempts-zero-implies-cache-hit
conjunct on the fresh-cache call. -/
theorem C8_retry_and_cache_witness :
    getJupiterTokens ⟨["tok"], 0⟩ 1000 failNet = ⟨["tok"], 0, ⟨["tok"], 0⟩⟩ ∧
    getJupiterTokens ⟨[], 0⟩ 0 failNet = ⟨[], 3, ⟨[], 0⟩⟩ ∧
    ((⟨["tok"], 0⟩ : JupState).cachedTokens ≠ [] ∧
      1000 - (⟨["tok"], 0⟩ : JupState).cacheTimestamp < CACHE_DURATION) :=
  ⟨C8_retry_and_cache.1 ⟨["tok"], 0⟩ 1000 failNet (by decide) (by decide),
    C8_retry_and_cache.2.1 ⟨[], 0⟩ 0 failNet
      (by intro k ts h; simp [failNet] at h) (by decide),
    C8_retry_and_cache.2.2 ⟨["tok"], 0⟩ 1000 failNet (by decide)⟩

end Mysol
